import Mathlib

/-!
Verification of the IWOOT product/receipt validation and service layer.

The definitions below are a shallow embedding of the TypeScript sources:
`product.validator`, `receipt.validator`, `lib/firebase/products.ts`,
`lib/firebase/receipts.ts`, `receipt.service.ts` / `ProductService`, and
`product-lookup.service.ts`.  JS numbers are modelled as `Rat`, JS strings as
`String`, optional fields as `Option`, and the two environment-provided
predicates (`new URL(...)` succeeding and `new Date(...)` parsing) as Boolean
oracles passed to each function that uses them.
-/

/-- Model of JS `String.prototype.trim` on the character list: drop leading and
trailing whitespace.  Written over `List Char` so it evaluates in the kernel. -/
def trimChars (cs : List Char) : List Char :=
  ((cs.dropWhile Char.isWhitespace).reverse.dropWhile Char.isWhitespace).reverse

/-- JS `s.trim()`. -/
def jsTrim (s : String) : String := ⟨trimChars s.data⟩

/-- JS truthiness of an optional number field: `undefined` and `0` are falsy. -/
def optNumTruthy : Option Rat → Bool
  | none => false
  | some x => !(x == 0)

/-- JS comparison `x <= 0` on an optional number field: `undefined <= 0` is
false in JS (NaN comparison), a present number compares normally. -/
def optNumLe0 : Option Rat → Bool
  | none => false
  | some x => decide (x ≤ 0)

/-- Result shape shared by all validators: `{ valid, errors }`. -/
structure ValidationResult where
  valid : Bool
  errors : List String
deriving DecidableEq

/-- The `type` discriminator of a product; `have_` models the `"have"` tag. -/
inductive ProductType
  | want
  | have_
deriving DecidableEq

/-- A price-history entry `{price, date, website, notes?}`. -/
structure PriceEntry where
  price : Rat
  date : String
  website : String
  notes : Option String := none
deriving DecidableEq

/-- A product create payload: `Omit<Product, "id" | "createdAt" | "updatedAt">`.
The TS `Product` is a union of `WantProduct` and `HaveProduct`; the runtime
value is a plain object, so the variant-only fields are modelled as optional
fields next to the `type` tag, exactly as the validator accesses them after
its cast. -/
structure ProductPayload where
  type : ProductType
  name : String
  brand : String
  website : String
  originalPrice : Rat
  date : String
  userId : String
  description : Option String := none
  category : Option String := none
  images : Option (List String) := none
  specifications : Option (List (String × String)) := none
  model : Option String := none
  sku : Option String := none
  color : Option String := none
  size : Option String := none
  condition : Option String := none
  notes : Option String := none
  currentPrice : Option Rat := none
  targetPrice : Option Rat := none
  priceHistory : Option (List PriceEntry) := none
  priceBought : Option Rat := none
  purchaseLocation : Option String := none
  warrantyExpiry : Option String := none
  receiptId : Option String := none
  isSelling : Option Bool := none
  sellingOn : Option String := none
deriving DecidableEq

/-- `!product.name || product.name.trim().length === 0`. -/
def nameErr (p : ProductPayload) : Bool :=
  p.name == "" || (jsTrim p.name).length == 0

/-- `!product.brand || product.brand.trim().length === 0`. -/
def brandErr (p : ProductPayload) : Bool :=
  p.brand == "" || (jsTrim p.brand).length == 0

/-- `!product.website || !isValidUrl(product.website)`. -/
def websiteErr (isValidUrl : String → Bool) (p : ProductPayload) : Bool :=
  p.website == "" || !(isValidUrl p.website)

/-- `!product.originalPrice || product.originalPrice <= 0` (`0` is falsy). -/
def originalPriceErr (p : ProductPayload) : Bool :=
  p.originalPrice == 0 || decide (p.originalPrice ≤ 0)

/-- `!product.date || !isValidDate(product.date)`. -/
def dateErr (isValidDate : String → Bool) (p : ProductPayload) : Bool :=
  p.date == "" || !(isValidDate p.date)

/-- `!product.userId || product.userId.trim().length === 0`. -/
def userIdErr (p : ProductPayload) : Bool :=
  p.userId == "" || (jsTrim p.userId).length == 0

/-- `wantProduct.currentPrice && wantProduct.currentPrice <= 0`: JS truthiness,
so a present `0` makes the conjunction false. -/
def currentPriceErr (p : ProductPayload) : Bool :=
  optNumTruthy p.currentPrice && optNumLe0 p.currentPrice

/-- `wantProduct.targetPrice && wantProduct.targetPrice <= 0`. -/
def targetPriceErr (p : ProductPayload) : Bool :=
  optNumTruthy p.targetPrice && optNumLe0 p.targetPrice

/-- `!haveProduct.priceBought || haveProduct.priceBought <= 0`. -/
def priceBoughtErr (p : ProductPayload) : Bool :=
  !(optNumTruthy p.priceBought) || optNumLe0 p.priceBought

/-- The `product.images.forEach((url, index) => ...)` loop: one message per
invalid URL, carrying its 1-based index. -/
def imageErrors (isValidUrl : String → Bool) (urls : List String) (start : Nat) : List String :=
  match urls with
  | [] => []
  | url :: rest =>
      (if isValidUrl url then []
       else ["Image URL " ++ toString (start + 1) ++ " is not a valid URL"])
        ++ imageErrors isValidUrl rest (start + 1)

/-- The type-specific branch of `validateProduct`. -/
def typeErrors (p : ProductPayload) : List String :=
  match p.type with
  | ProductType.want =>
      (if currentPriceErr p then ["Current price must be greater than 0"] else [])
        ++ (if targetPriceErr p then ["Target price must be greater than 0"] else [])
  | ProductType.have_ =>
      if priceBoughtErr p then ["Price bought must be greater than 0"] else []

/-- `validateProduct` from `product.validator`: accumulates every error message
in source order, and `valid` is `errors.length === 0`. -/
def validateProduct (isValidUrl isValidDate : String → Bool) (p : ProductPayload) :
    ValidationResult :=
  let errors :=
    (if nameErr p then ["Product name is required"] else [])
    ++ (if brandErr p then ["Brand is required"] else [])
    ++ (if websiteErr isValidUrl p then ["Valid website URL is required"] else [])
    ++ (if originalPriceErr p then ["Original price must be greater than 0"] else [])
    ++ (if dateErr isValidDate p then ["Valid date is required"] else [])
    ++ (if userIdErr p then ["User ID is required"] else [])
    ++ typeErrors p
    ++ (match p.images with
        | none => []
        | some urls => imageErrors isValidUrl urls 0)
  { valid := errors.length == 0, errors := errors }

/-- A product update payload: `Partial<Omit<Product, "id" | "userId" | "createdAt">>`.
There is no `userId` or `createdAt` field: the accepted update surface excludes
them by type. -/
structure ProductUpdates where
  type : Option ProductType := none
  name : Option String := none
  brand : Option String := none
  website : Option String := none
  originalPrice : Option Rat := none
  date : Option String := none
  description : Option String := none
  category : Option String := none
  images : Option (List String) := none
  specifications : Option (List (String × String)) := none
  model : Option String := none
  sku : Option String := none
  color : Option String := none
  size : Option String := none
  condition : Option String := none
  notes : Option String := none
  currentPrice : Option Rat := none
  targetPrice : Option Rat := none
  priceHistory : Option (List PriceEntry) := none
  priceBought : Option Rat := none
  purchaseLocation : Option String := none
  warrantyExpiry : Option String := none
  receiptId : Option String := none
  isSelling : Option Bool := none
  sellingOn : Option String := none
  updatedAt : Option String := none
deriving DecidableEq

/-- `validateProductUpdate` from `product.validator`: each rule fires only when
the field is present.  Note: the update validator checks `currentPrice <= 0`
and `priceBought <= 0` outright (rejecting a present `0`), and has no
`targetPrice` check at all. -/
def validateProductUpdate (isValidUrl isValidDate : String → Bool) (updates : ProductUpdates) :
    ValidationResult :=
  let errors :=
    (match updates.name with
     | none => []
     | some n => if n == "" || (jsTrim n).length == 0 then ["Product name cannot be empty"] else [])
    ++ (match updates.website with
        | none => []
        | some w => if !(isValidUrl w) then ["Website must be a valid URL"] else [])
    ++ (match updates.originalPrice with
        | none => []
        | some op => if decide (op ≤ 0) then ["Original price must be greater than 0"] else [])
    ++ (match updates.currentPrice with
        | none => []
        | some cp => if decide (cp ≤ 0) then ["Current price must be greater than 0"] else [])
    ++ (match updates.priceBought with
        | none => []
        | some pb => if decide (pb ≤ 0) then ["Price bought must be greater than 0"] else [])
    ++ (match updates.date with
        | none => []
        | some dt => if !(isValidDate dt) then ["Date must be a valid date"] else [])
    ++ (match updates.images with
        | none => []
        | some urls => imageErrors isValidUrl urls 0)
  { valid := errors.length == 0, errors := errors }

/-- The images rule of `validateProduct`: when present, every URL is valid. -/
def imagesOk (isValidUrl : String → Bool) (p : ProductPayload) : Bool :=
  match p.images with
  | none => true
  | some urls => urls.all isValidUrl

/-- The type-specific rules of `validateProduct`, as the code checks them. -/
def typeRulesOk (p : ProductPayload) : Bool :=
  match p.type with
  | ProductType.want => !(currentPriceErr p) && !(targetPriceErr p)
  | ProductType.have_ => !(priceBoughtErr p)

/-- Conjunction of every rule `validateProduct` checks. -/
def productRulesOk (isValidUrl isValidDate : String → Bool) (p : ProductPayload) : Bool :=
  !(nameErr p) && !(brandErr p) && !(websiteErr isValidUrl p) && !(originalPriceErr p)
    && !(dateErr isValidDate p) && !(userIdErr p) && typeRulesOk p && imagesOk isValidUrl p

/-- A receipt line item `{id, productId, quantity, discountedPrice}`. -/
structure ReceiptItem where
  id : String
  productId : String
  quantity : Rat
  discountedPrice : Rat
deriving DecidableEq

/-- A receipt create payload: `Omit<Receipt, "id" | "createdAt" | "updatedAt">`. -/
structure ReceiptPayload where
  receiptNumber : String
  storeName : String
  receiptDate : String
  items : List ReceiptItem
  totalAmount : Rat
  userId : String
  receiptImage : Option String := none
  notes : Option String := none
deriving DecidableEq

/-- The per-item loop of `validateReceipt`: productId, quantity and
discountedPrice checks, each message carrying the 1-based item index. -/
def receiptItemErrors (items : List ReceiptItem) (start : Nat) : List String :=
  match items with
  | [] => []
  | item :: rest =>
      (if item.productId == "" || (jsTrim item.productId).length == 0 then
        ["Item " ++ toString (start + 1) ++ ": Product ID is required"] else [])
      ++ (if item.quantity == 0 || decide (item.quantity ≤ 0) then
        ["Item " ++ toString (start + 1) ++ ": Quantity must be greater than 0"] else [])
      ++ (if decide (item.discountedPrice < 0) then
        ["Item " ++ toString (start + 1) ++ ": Price cannot be negative"] else [])
      ++ receiptItemErrors rest (start + 1)

/-- `validateReceipt` from `receipt.validator`. -/
def validateReceipt (isValidUrl isValidDate : String → Bool) (receipt : ReceiptPayload) :
    ValidationResult :=
  let errors :=
    (if receipt.receiptNumber == "" || (jsTrim receipt.receiptNumber).length == 0 then
      ["Receipt number is required"] else [])
    ++ (if receipt.storeName == "" || (jsTrim receipt.storeName).length == 0 then
      ["Store name is required"] else [])
    ++ (if receipt.receiptDate == "" || !(isValidDate receipt.receiptDate) then
      ["Valid receipt date is required"] else [])
    ++ (if receipt.items.length == 0 then ["Receipt must have at least one item"] else [])
    ++ receiptItemErrors receipt.items 0
    ++ (if decide (receipt.totalAmount < 0) then ["Total amount cannot be negative"] else [])
    ++ (if receipt.userId == "" || (jsTrim receipt.userId).length == 0 then
      ["User ID is required"] else [])
    ++ (match receipt.receiptImage with
        | none => []
        | some img =>
            if !(img == "") && !(isValidUrl img) then ["Receipt image must be a valid URL"]
            else [])
  { valid := errors.length == 0, errors := errors }

/-- A receipt update payload: `Partial<Omit<Receipt, "id" | "userId" | "createdAt">>`. -/
structure ReceiptUpdates where
  receiptNumber : Option String := none
  storeName : Option String := none
  receiptDate : Option String := none
  items : Option (List ReceiptItem) := none
  totalAmount : Option Rat := none
  receiptImage : Option String := none
  notes : Option String := none
  updatedAt : Option String := none
deriving DecidableEq

/-- The per-item loop of `validateReceiptUpdate`.  Unlike the create-side loop
it checks only productId and quantity: there is no discountedPrice check in
the source. -/
def receiptUpdateItemErrors (items : List ReceiptItem) (start : Nat) : List String :=
  match items with
  | [] => []
  | item :: rest =>
      (if item.productId == "" || (jsTrim item.productId).length == 0 then
        ["Item " ++ toString (start + 1) ++ ": Product ID is required"] else [])
      ++ (if item.quantity == 0 || decide (item.quantity ≤ 0) then
        ["Item " ++ toString (start + 1) ++ ": Quantity must be greater than 0"] else [])
      ++ receiptUpdateItemErrors rest (start + 1)

/-- `validateReceiptUpdate` from `receipt.validator`: each rule fires only when
the corresponding field is present. -/
def validateReceiptUpdate (isValidUrl isValidDate : String → Bool) (updates : ReceiptUpdates) :
    ValidationResult :=
  let errors :=
    (match updates.receiptNumber with
     | none => []
     | some rn =>
        if rn == "" || (jsTrim rn).length == 0 then ["Receipt number cannot be empty"] else [])
    ++ (match updates.storeName with
        | none => []
        | some sn =>
            if sn == "" || (jsTrim sn).length == 0 then ["Store name cannot be empty"] else [])
    ++ (match updates.receiptDate with
        | none => []
        | some rd => if !(isValidDate rd) then ["Receipt date must be a valid date"] else [])
    ++ (match updates.items with
        | none => []
        | some items =>
            (if items.length == 0 then ["Receipt must have at least one item"] else [])
              ++ receiptUpdateItemErrors items 0)
    ++ (match updates.totalAmount with
        | none => []
        | some ta => if decide (ta < 0) then ["Total amount cannot be negative"] else [])
    ++ (match updates.receiptImage with
        | none => []
        | some img =>
            if !(img == "") && !(isValidUrl img) then ["Receipt image must be a valid URL"]
            else [])
  { valid := errors.length == 0, errors := errors }

/-- The item rules that `validateReceiptUpdate` actually enforces per item. -/
def updateItemRulesOk (item : ReceiptItem) : Bool :=
  !(item.productId == "" || (jsTrim item.productId).length == 0)
    && !(item.quantity == 0 || decide (item.quantity ≤ 0))

/-- The non-item rules of `validateReceiptUpdate`, each applied only when the
field is present. -/
def receiptUpdateOtherRulesOk (isValidUrl isValidDate : String → Bool)
    (updates : ReceiptUpdates) : Bool :=
  (match updates.receiptNumber with
   | none => true
   | some rn => !(rn == "" || (jsTrim rn).length == 0))
  && (match updates.storeName with
      | none => true
      | some sn => !(sn == "" || (jsTrim sn).length == 0))
  && (match updates.receiptDate with
      | none => true
      | some rd => isValidDate rd)
  && (match updates.totalAmount with
      | none => true
      | some ta => !(decide (ta < 0)))
  && (match updates.receiptImage with
      | none => true
      | some img => img == "" || isValidUrl img)

/-- A persisted product document: the payload plus the service-assigned
timestamps.  The document id is the store key, kept outside the record. -/
structure StoredProduct extends ProductPayload where
  createdAt : String
  updatedAt : String
deriving DecidableEq

/-- The products collection: documents keyed by id. -/
abbrev ProductStore := List (String × StoredProduct)

/-- `getProduct`/`getDoc`: the document with the given id, or `null`. -/
def findProduct : ProductStore → String → Option StoredProduct
  | [], _ => none
  | kv :: rest, productId =>
      if kv.1 = productId then some kv.2 else findProduct rest productId

/-- Replace the document at `productId` (Firestore `updateDoc` write-back). -/
def setProduct : ProductStore → String → StoredProduct → ProductStore
  | [], _, _ => []
  | kv :: rest, productId, r =>
      (if kv.1 = productId then (kv.1, r) else kv) :: setProduct rest productId r

/-- Merge of one update field into the stored value: a supplied field wins,
an absent one keeps the stored value. -/
def mergeOpt {α : Type} (u : Option α) (old : Option α) : Option α :=
  match u with
  | some v => some v
  | none => old

/-- Firestore `updateDoc(docRef, {...updates, updatedAt: now})` applied to one
document: every supplied field overwrites the stored one, `updatedAt` is
always refreshed, and `userId`/`createdAt` cannot appear in `updates` (the
update type omits them), so they are taken from the stored record. -/
def applyUpdates (r : StoredProduct) (now : String) (u : ProductUpdates) : StoredProduct :=
  { type := u.type.getD r.type
    name := u.name.getD r.name
    brand := u.brand.getD r.brand
    website := u.website.getD r.website
    originalPrice := u.originalPrice.getD r.originalPrice
    date := u.date.getD r.date
    userId := r.userId
    description := mergeOpt u.description r.description
    category := mergeOpt u.category r.category
    images := mergeOpt u.images r.images
    specifications := mergeOpt u.specifications r.specifications
    model := mergeOpt u.model r.model
    sku := mergeOpt u.sku r.sku
    color := mergeOpt u.color r.color
    size := mergeOpt u.size r.size
    condition := mergeOpt u.condition r.condition
    notes := mergeOpt u.notes r.notes
    currentPrice := mergeOpt u.currentPrice r.currentPrice
    targetPrice := mergeOpt u.targetPrice r.targetPrice
    priceHistory := mergeOpt u.priceHistory r.priceHistory
    priceBought := mergeOpt u.priceBought r.priceBought
    purchaseLocation := mergeOpt u.purchaseLocation r.purchaseLocation
    warrantyExpiry := mergeOpt u.warrantyExpiry r.warrantyExpiry
    receiptId := mergeOpt u.receiptId r.receiptId
    isSelling := mergeOpt u.isSelling r.isSelling
    sellingOn := mergeOpt u.sellingOn r.sellingOn
    createdAt := r.createdAt
    updatedAt := now }

/-- `updateProduct` from `lib/firebase/products.ts`: Firestore `updateDoc`
rejects a missing document and otherwise merges the supplied fields plus a
refreshed `updatedAt`. -/
def updateProductRepo (store : ProductStore) (productId now : String) (u : ProductUpdates) :
    Except String ProductStore :=
  match findProduct store productId with
  | none => Except.error "No document to update"
  | some r => Except.ok (setProduct store productId (applyUpdates r now u))

/-- The record persisted by `createProduct`: `{...product, createdAt: now, updatedAt: now}`. -/
def stampProduct (p : ProductPayload) (now : String) : StoredProduct :=
  { toProductPayload := p, createdAt := now, updatedAt := now }

/-- `createProduct` from `lib/firebase/products.ts`: stamp both timestamps with
the same `now`, persist under a fresh id, return the id. -/
def createProductRepo (store : ProductStore) (newId now : String) (p : ProductPayload) :
    ProductStore × String :=
  (store ++ [(newId, stampProduct p now)], newId)

/-- `addPriceHistory` from `lib/firebase/products.ts`: fetch, fail with
"Product not found" when absent, append one `{price, date: now, website}`
entry, and spread `{ currentPrice: price }` only when the type is `"want"`. -/
def addPriceHistoryRepo (store : ProductStore) (now productId : String) (price : Rat)
    (website : String) : Except String ProductStore :=
  match findProduct store productId with
  | none => Except.error "Product not found"
  | some product =>
      let history := product.priceHistory.getD []
      let newEntry : PriceEntry := { price := price, date := now, website := website }
      let u : ProductUpdates :=
        { priceHistory := some (history ++ [newEntry])
          currentPrice := if product.type == ProductType.want then some price else none }
      updateProductRepo store productId now u

/-- JS `storeName || "Unknown Store"`: `undefined` and `""` fall back. -/
def jsOrString (o : Option String) (dflt : String) : String :=
  match o with
  | none => dflt
  | some s => if s == "" then dflt else s

/-- `ProductService.createProduct`: validate, on failure throw the joined
message without touching the store, on success delegate to the repository. -/
def serviceCreateProduct (isValidUrl isValidDate : String → Bool) (store : ProductStore)
    (newId now : String) (p : ProductPayload) : ProductStore × Except String String :=
  let validation := validateProduct isValidUrl isValidDate p
  if validation.valid = false then
    (store, Except.error ("Validation failed: " ++ String.intercalate ", " validation.errors))
  else
    let created := createProductRepo store newId now p
    (created.1, Except.ok created.2)

/-- `ProductService.updateProduct`: guard the id, validate the updates, then
delegate to the repository, wrapping its failure message. -/
def serviceUpdateProduct (isValidUrl isValidDate : String → Bool) (store : ProductStore)
    (productId now : String) (updates : ProductUpdates) : ProductStore × Except String Unit :=
  if productId = "" then (store, Except.error "Valid productId is required")
  else
    let validation := validateProductUpdate isValidUrl isValidDate updates
    if validation.valid = false then
      (store, Except.error ("Validation failed: " ++ String.intercalate ", " validation.errors))
    else
      match updateProductRepo store productId now updates with
      | Except.error e => (store, Except.error ("Failed to update product: " ++ e))
      | Except.ok s2 => (s2, Except.ok ())

/-- `ProductService.addPriceHistory`: guard the id, then `if (price <= 0) throw`
before any repository call; the `date` and `notes` arguments are accepted but
never forwarded, and `storeName || "Unknown Store"` is passed as the source. -/
def serviceAddPriceHistory (store : ProductStore) (now productId : String) (price : Rat)
    (_date : String) (storeName : Option String) (_notes : Option String) :
    ProductStore × Except String Unit :=
  if productId = "" then (store, Except.error "Valid productId is required")
  else if price ≤ 0 then (store, Except.error "Price must be greater than 0")
  else
    match addPriceHistoryRepo store now productId price (jsOrString storeName "Unknown Store") with
    | Except.error e => (store, Except.error ("Failed to add price history: " ++ e))
    | Except.ok s2 => (s2, Except.ok ())

/-- The comparator of `getProducts`' manual sort, as a Boolean "comes no later
than" relation: the comparator returns `bDate.localeCompare(aDate)` with
missing `createdAt` sorted last, so `a` may precede `b` iff that value is
less than or equal to zero. -/
def newestFirstLe (a b : StoredProduct) : Bool :=
  if a.createdAt = "" ∧ b.createdAt = "" then true
  else if a.createdAt = "" then false
  else if b.createdAt = "" then true
  else decide (b.createdAt ≤ a.createdAt)

/-- `products.sort(comparator)`: JS `Array.prototype.sort` is a stable sort
consistent with the comparator, modelled by `mergeSort`. -/
def sortNewestFirst (products : List StoredProduct) : List StoredProduct :=
  products.mergeSort newestFirstLe

/-- The Firestore query of `getProducts`: equality filter on `userId` plus an
optional equality filter on `type`. -/
def runProductsQuery (store : ProductStore) (userId : String) (ty : Option ProductType) :
    List StoredProduct :=
  (store.filter (fun kv =>
      kv.2.userId == userId &&
        (match ty with
         | none => true
         | some t => kv.2.type == t))).map (fun kv => kv.2)

/-- `getProducts` from `lib/firebase/products.ts`.  `failure` is the error code
reported by the backend, if any: the catch block returns `[]` for the three
recognized transient codes, and also returns `[]` for any other error. -/
def getProductsRepo (store : ProductStore) (userId : String) (ty : Option ProductType)
    (failure : Option String) : List StoredProduct :=
  match failure with
  | some code =>
      if code == "failed-precondition" || code == "unavailable" || code == "permission-denied"
      then []
      else []
  | none => sortNewestFirst (runProductsQuery store userId ty)

/-- A scalar Firestore field value, as stored inside a receipt item map. -/
inductive FireValue
  | str (s : String)
  | num (q : Rat)
deriving DecidableEq

/-- The Firestore document value of a receipt item: a map with the item's four
required fields. -/
def encodeItem (item : ReceiptItem) : List (String × FireValue) :=
  [("id", FireValue.str item.id),
   ("productId", FireValue.str item.productId),
   ("quantity", FireValue.num item.quantity),
   ("discountedPrice", FireValue.num item.discountedPrice)]

/-- The value the source passes to `array-contains-any`: the one-field map
`{ productId }`. -/
def productIdQueryValue (productId : String) : List (String × FireValue) :=
  [("productId", FireValue.str productId)]

/-- Firestore deep equality on map values: equal when the field counts match
and every field of the first occurs with an equal value in the second. -/
def fireMapEq (a b : List (String × FireValue)) : Bool :=
  a.length == b.length &&
    a.all (fun kv => b.any (fun kv2 => kv2.1 == kv.1 && kv2.2 == kv.2))

/-- `getReceiptsByProduct` from `lib/firebase/receipts.ts`: the Firestore query
`where("items", "array-contains-any", [{ productId }])` matches a receipt only
when its `items` array contains an element deep-equal to the one-field map,
then the snapshot is filtered client-side by
`items.some(item => item.productId === productId)`. -/
def getReceiptsByProduct (store : List ReceiptPayload) (productId : String) :
    List ReceiptPayload :=
  let snapshot := store.filter (fun r =>
    r.items.any (fun item => fireMapEq (encodeItem item) (productIdQueryValue productId)))
  snapshot.filter (fun r => r.items.any (fun item => item.productId == productId))

/-- One attempted external call of the product-lookup service. -/
inductive LookupCall
  | barcode (code : String)
  | search (q : String)
deriving DecidableEq

/-- Outcome of a `fetch`: a thrown network error, or a response with its
`ok` flag and parsed JSON body. -/
inductive FetchOutcome (α : Type)
  | networkError
  | response (ok : Bool) (body : α)

/-- One item of a UPCitemdb response, with the fields the mapping reads. -/
structure UpcItem where
  title : Option String := none
  description : Option String := none
  brand : Option String := none
  category : Option String := none
  images : Option (List String) := none
  lowestRecordedPrice : Option Rat := none
  highestRecordedPrice : Option Rat := none
  offerLinks : Option (List String) := none
  specs : Option (List (String × String)) := none
deriving DecidableEq

/-- The parsed body of a UPCitemdb response: `{ code, items? }`. -/
structure UpcResponse where
  code : String
  items : Option (List UpcItem)
deriving DecidableEq

/-- The `ProductLookupResult` shape returned to the caller. -/
structure ProductLookupResult where
  name : Option String := none
  brand : Option String := none
  description : Option String := none
  category : Option String := none
  images : Option (List String) := none
  price : Option Rat := none
  website : Option String := none
  specifications : Option (List (String × String)) := none
deriving DecidableEq

/-- JS `a || b` on optional strings: `undefined` and `""` fall through. -/
def jsOrOptString (a b : Option String) : Option String :=
  match a with
  | none => b
  | some s => if s == "" then b else some s

/-- JS `a || b` on optional numbers: `undefined` and `0` fall through. -/
def jsOrOptNum (a b : Option Rat) : Option Rat :=
  match a with
  | none => b
  | some x => if x == 0 then b else some x

/-- The field mapping both lookup paths apply to the first returned item. -/
def mapUpcItem (item : UpcItem) : ProductLookupResult :=
  { name := jsOrOptString item.title item.description
    brand := item.brand
    description := item.description
    category := item.category
    images :=
      match item.images with
      | none => none
      | some l => if decide (l.length > 0) then some l else none
    price := jsOrOptNum item.lowestRecordedPrice item.highestRecordedPrice
    website :=
      match item.offerLinks with
      | none => none
      | some links => links.head?
    specifications := item.specs }

/-- `data.code === "OK" && data.items && data.items.length > 0`, then map the
first item; otherwise `null`. -/
def upcExtract (body : UpcResponse) : Option ProductLookupResult :=
  if body.code == "OK" then
    match body.items with
    | none => none
    | some [] => none
    | some (item :: _) => some (mapUpcItem item)
  else none

/-- `lookupByBarcode`: a thrown fetch error or a non-`ok` response is swallowed
into `null`; otherwise extract from the body. -/
def lookupByBarcode (fetched : FetchOutcome UpcResponse) : Option ProductLookupResult :=
  match fetched with
  | FetchOutcome.networkError => none
  | FetchOutcome.response ok body => if ok = false then none else upcExtract body

/-- `searchProductByName`: identical error handling and mapping as the barcode
path, against the search endpoint. -/
def searchProductByName (fetched : FetchOutcome UpcResponse) : Option ProductLookupResult :=
  match fetched with
  | FetchOutcome.networkError => none
  | FetchOutcome.response ok body => if ok = false then none else upcExtract body

/-- The regex `/^\d+$/`: non-empty and all digits. -/
def isNumericQuery (s : String) : Bool :=
  !(s.length == 0) && s.data.all Char.isDigit

/-- `lookupProduct` from `product-lookup.service.ts`, instrumented with the
list of external calls it attempts, in order.  `fetchBarcode` and
`fetchSearch` are the two endpoints' responses to a given query string. -/
def lookupProduct (fetchBarcode fetchSearch : String → FetchOutcome UpcResponse)
    (query : String) : Option ProductLookupResult × List LookupCall :=
  if query == "" || ((jsTrim query).length == 0) then (none, [])
  else
    let trimmed := jsTrim query
    if isNumericQuery trimmed then
      match lookupByBarcode (fetchBarcode trimmed) with
      | some r => (some r, [LookupCall.barcode trimmed])
      | none =>
          match searchProductByName (fetchSearch trimmed) with
          | some r => (some r, [LookupCall.barcode trimmed, LookupCall.search trimmed])
          | none => (none, [LookupCall.barcode trimmed, LookupCall.search trimmed])
    else
      match searchProductByName (fetchSearch trimmed) with
      | some r => (some r, [LookupCall.search trimmed])
      | none => (none, [LookupCall.search trimmed])

theorem if_singleton_eq_nil (c : Bool) (m : String) :
    ((if c = true then [m] else []) = ([] : List String)) ↔ c = false := by
  cases c <;> simp

theorem imageErrors_eq_nil (u : String → Bool) (urls : List String) (start : Nat) :
    imageErrors u urls start = [] ↔ urls.all u = true := by
  induction urls generalizing start with
  | nil => simp [imageErrors]
  | cons url rest ih => cases h : u url <;> simp [imageErrors, h, ih]

theorem imageErrors_mem (u : String → Bool) (urls : List String) (start i : Nat)
    (hi : i < urls.length) (hu : u (urls.get ⟨i, hi⟩) = false) :
    ("Image URL " ++ toString (start + i + 1) ++ " is not a valid URL")
      ∈ imageErrors u urls start := by
  induction urls generalizing start i with
  | nil => exact absurd hi (Nat.not_lt_zero i)
  | cons url rest ih =>
      cases i with
      | zero =>
          have hu0 : u url = false := hu
          simp [imageErrors, hu0]
      | succ j =>
          have hj : j < rest.length := Nat.lt_of_succ_lt_succ hi
          have hmem := ih (start + 1) j hj hu
          have harith : start + (j + 1) + 1 = start + 1 + j + 1 := by omega
          rw [harith]
          simp only [imageErrors]
          exact List.mem_append_right _ hmem

theorem typeErrors_eq_nil (p : ProductPayload) :
    typeErrors p = [] ↔ typeRulesOk p = true := by
  cases h : p.type <;>
    simp [typeErrors, typeRulesOk, h, List.append_eq_nil, if_singleton_eq_nil,
      Bool.and_eq_true, Bool.not_eq_true']

theorem validateProduct_errors_eq_nil (u d : String → Bool) (p : ProductPayload) :
    ((validateProduct u d p).errors = []) ↔ productRulesOk u d p = true := by
  cases himg : p.images with
  | none =>
      simp [validateProduct, productRulesOk, himg, List.append_eq_nil, if_singleton_eq_nil,
        typeErrors_eq_nil, imagesOk, Bool.and_eq_true, Bool.not_eq_true']
      tauto
  | some urls =>
      simp [validateProduct, productRulesOk, himg, List.append_eq_nil, if_singleton_eq_nil,
        typeErrors_eq_nil, imagesOk, imageErrors_eq_nil, Bool.and_eq_true, Bool.not_eq_true']
      tauto

/-- Claim C2: for every candidate product payload, `validateProduct` returns
`valid = false` iff at least one of its declared rules — name, brand, website,
originalPrice, date, userId, the type-specific price rules as the code states
them, and the per-image URL rule — is violated; it accumulates all failures,
so every violated rule contributes its message to `errors`, and `valid` is
true exactly when `errors` is empty. -/
theorem validateProduct_iff_rules (u d : String → Bool) (p : ProductPayload) :
    ((validateProduct u d p).valid = true ↔ (validateProduct u d p).errors = [])
    ∧ ((validateProduct u d p).valid = false ↔ productRulesOk u d p = false)
    ∧ (nameErr p = true → "Product name is required" ∈ (validateProduct u d p).errors)
    ∧ (brandErr p = true → "Brand is required" ∈ (validateProduct u d p).errors)
    ∧ (websiteErr u p = true → "Valid website URL is required" ∈ (validateProduct u d p).errors)
    ∧ (originalPriceErr p = true →
        "Original price must be greater than 0" ∈ (validateProduct u d p).errors)
    ∧ (dateErr d p = true → "Valid date is required" ∈ (validateProduct u d p).errors)
    ∧ (userIdErr p = true → "User ID is required" ∈ (validateProduct u d p).errors)
    ∧ (p.type = ProductType.want → currentPriceErr p = true →
        "Current price must be greater than 0" ∈ (validateProduct u d p).errors)
    ∧ (p.type = ProductType.want → targetPriceErr p = true →
        "Target price must be greater than 0" ∈ (validateProduct u d p).errors)
    ∧ (p.type = ProductType.have_ → priceBoughtErr p = true →
        "Price bought must be greater than 0" ∈ (validateProduct u d p).errors)
    ∧ (∀ urls i, p.images = some urls → ∀ hi : i < urls.length,
        u (urls.get ⟨i, hi⟩) = false →
        ("Image URL " ++ toString (i + 1) ++ " is not a valid URL")
          ∈ (validateProduct u d p).errors) := by
  have hv : (validateProduct u d p).valid
      = ((validateProduct u d p).errors.length == 0) := rfl
  refine ⟨?_, ?_, ?_, ?_, ?_, ?_, ?_, ?_, ?_, ?_, ?_, ?_⟩
  · rw [hv]
    simp [List.length_eq_zero]
  · rw [hv]
    rw [Bool.eq_false_iff, Bool.eq_false_iff]
    simp [List.length_eq_zero, Ne, validateProduct_errors_eq_nil]
  · intro h
    simp [validateProduct, List.mem_append, h]
  · intro h
    simp [validateProduct, List.mem_append, h]
  · intro h
    simp [validateProduct, List.mem_append, h]
  · intro h
    simp [validateProduct, List.mem_append, h]
  · intro h
    simp [validateProduct, List.mem_append, h]
  · intro h
    simp [validateProduct, List.mem_append, h]
  · intro ht h
    simp [validateProduct, typeErrors, List.mem_append, ht, h]
  · intro ht h
    simp [validateProduct, typeErrors, List.mem_append, ht, h]
  · intro ht h
    simp [validateProduct, typeErrors, List.mem_append, ht, h]
  · intro urls i him hi hu
    have hmem := imageErrors_mem u urls 0 i hi hu
    rw [Nat.zero_add] at hmem
    simp [validateProduct, List.mem_append, him, hmem]

/-- An invalid "want" payload used to instantiate `validateProduct_iff_rules`：
empty name, empty brand, and a negative target price. -/
def badWantPayload : ProductPayload :=
  { type := ProductType.want
    name := ""
    brand := "   "
    website := "https://example.com"
    originalPrice := 100
    date := "2024-01-15"
    userId := "user-1"
    targetPrice := some (-3) }

theorem validateProduct_iff_rules_witness :
    "Product name is required"
      ∈ (validateProduct (fun _ => true) (fun _ => true) badWantPayload).errors
    ∧ "Target price must be greater than 0"
      ∈ (validateProduct (fun _ => true) (fun _ => true) badWantPayload).errors :=
  ⟨(validateProduct_iff_rules (fun _ => true) (fun _ => true) badWantPayload).2.2.1 (by decide),
   (validateProduct_iff_rules (fun _ => true) (fun _ => true)
      badWantPayload).2.2.2.2.2.2.2.2.2.1 rfl (by decide)⟩

/-- The spec's failing input for claim C1: a fully well-formed "want" create
payload whose `currentPrice` and `targetPrice` are an explicit `0`. -/
def wantZeroPricePayload : ProductPayload :=
  { type := ProductType.want
    name := "iPad Pro"
    brand := "Apple"
    website := "https://www.apple.com/ipad-pro"
    originalPrice := 999
    date := "2024-01-15"
    userId := "user-1"
    currentPrice := some 0
    targetPrice := some 0 }

/-- Claim C1, evaluated at the failing input: `validateProduct` accepts a
"want" create payload with `currentPrice = 0` and `targetPrice = 0` (the JS
guard `price && price <= 0` treats a present `0` as falsy and skips the
check), while `validateProductUpdate` rejects a present `currentPrice = 0` —
the spec's edge-case policy says a price equal to exactly 0 is always
rejected, including on create. -/
theorem validateProduct_accepts_zero_want_prices :
    (validateProduct (fun _ => true) (fun _ => true) wantZeroPricePayload).valid = true
    ∧ (validateProduct (fun _ => true) (fun _ => true) wantZeroPricePayload).errors = []
    ∧ wantZeroPricePayload.currentPrice = some 0
    ∧ wantZeroPricePayload.targetPrice = some 0
    ∧ (validateProductUpdate (fun _ => true) (fun _ => true)
        { currentPrice := some 0 }).valid = false := by
  decide

theorem receiptUpdateItemErrors_eq_nil (items : List ReceiptItem) (start : Nat) :
    receiptUpdateItemErrors items start = []
      ↔ ∀ item ∈ items, updateItemRulesOk item = true := by
  induction items generalizing start with
  | nil => simp [receiptUpdateItemErrors]
  | cons item rest ih =>
      simp [receiptUpdateItemErrors, List.append_eq_nil, if_singleton_eq_nil, ih,
        updateItemRulesOk, Bool.and_eq_true, Bool.not_eq_true']
      tauto

/-- A receipt item whose unit price is negative. -/
def negPriceItem : ReceiptItem :=
  { id := "item-1", productId := "prod-1", quantity := 1, discountedPrice := -5 }

/-- A partial receipt update supplying only an items list with that item. -/
def negPriceUpdate : ReceiptUpdates := { items := some [negPriceItem] }

/-- Claim C4 (counterexample): a partial update whose items contain a negative
`discountedPrice` is NOT rejected by `validateReceiptUpdate` — its per-item
loop has no price check — although `validateReceipt` rejects the very same
item on create. -/
theorem validateReceiptUpdate_negPrice_not_rejected :
    (validateReceiptUpdate (fun _ => true) (fun _ => true) negPriceUpdate).valid = true
    ∧ negPriceItem.discountedPrice < 0
    ∧ (validateReceipt (fun _ => true) (fun _ => true)
        { receiptNumber := "R-1", storeName := "Store", receiptDate := "2024-01-10",
          items := [negPriceItem], totalAmount := 0, userId := "user-1" }).valid = false := by
  decide

set_option maxHeartbeats 1600000 in
/-- Claim C4 (amended): when `items` is present, `validateReceiptUpdate`
requires the list to be non-empty and every item to have a non-empty
productId and a quantity greater than 0 — but, unlike `validateReceipt`, it
does not constrain `discountedPrice` at all: validity is exactly the
conjunction of the other per-field-if-present rules and these two item
rules. -/
theorem validateReceiptUpdate_items_rules (u d : String → Bool) (upd : ReceiptUpdates)
    (items : List ReceiptItem) (h : upd.items = some items) :
    (validateReceiptUpdate u d upd).valid = true ↔
      (receiptUpdateOtherRulesOk u d upd = true ∧ items ≠ []
        ∧ ∀ item ∈ items, updateItemRulesOk item = true) := by
  have hv : (validateReceiptUpdate u d upd).valid
      = ((validateReceiptUpdate u d upd).errors.length == 0) := rfl
  rw [hv]
  rcases h1 : upd.receiptNumber with _ | rn <;>
  rcases h2 : upd.storeName with _ | sn <;>
  rcases h3 : upd.receiptDate with _ | rd <;>
  rcases h4 : upd.totalAmount with _ | ta <;>
  rcases h5 : upd.receiptImage with _ | img <;>
    simp [validateReceiptUpdate, receiptUpdateOtherRulesOk, h, h1, h2, h3, h4, h5,
      List.append_eq_nil, if_singleton_eq_nil, receiptUpdateItemErrors_eq_nil,
      List.length_eq_zero, Bool.and_eq_true, Bool.not_eq_true'] <;>
    tauto

theorem validateReceiptUpdate_items_rules_witness :
    (validateReceiptUpdate (fun _ => true) (fun _ => true) negPriceUpdate).valid = true :=
  (validateReceiptUpdate_items_rules (fun _ => true) (fun _ => true) negPriceUpdate
      [negPriceItem] rfl).mpr (by decide)

theorem findProduct_setProduct_self (store : ProductStore) (productId : String)
    (r : StoredProduct) :
    findProduct (setProduct store productId r) productId
      = (findProduct store productId).map (fun _ => r) := by
  induction store with
  | nil => rfl
  | cons kv rest ih =>
      by_cases hk : kv.1 = productId <;> simp [findProduct, setProduct, hk, ih]

theorem findProduct_setProduct_ne (store : ProductStore) (productId q : String)
    (r : StoredProduct) (h : q ≠ productId) :
    findProduct (setProduct store productId r) q = findProduct store q := by
  induction store with
  | nil => rfl
  | cons kv rest ih =>
      by_cases hk : kv.1 = productId
      · have hq : kv.1 ≠ q := fun e => h (e.symm.trans hk)
        have hpq : productId ≠ q := fun e => h e.symm
        simp [findProduct, setProduct, hk, hq, hpq, ih]
      · simp [findProduct, setProduct, hk, ih]

/-- Claim C3: `addPriceHistory` fails with a not-found error when no product
with the given id exists; otherwise it appends exactly one entry
`{price, current timestamp, sourceLabel}` to the product's priceHistory and
sets `currentPrice` to the new price iff the product's type is "want" — a
"have" product keeps both `priceBought` and `currentPrice` untouched.  The
write also refreshes `updatedAt`, keeps the other fields and `createdAt`,
and touches no other document. -/
theorem addPriceHistory_spec (store : ProductStore) (now productId : String) (price : Rat)
    (website : String) :
    (findProduct store productId = none →
      addPriceHistoryRepo store now productId price website
        = Except.error "Product not found")
    ∧ (∀ r, findProduct store productId = some r →
        ∃ r2,
          addPriceHistoryRepo store now productId price website
            = Except.ok (setProduct store productId r2)
          ∧ r2.priceHistory = some (r.priceHistory.getD []
              ++ [{ price := price, date := now, website := website }])
          ∧ (r.type = ProductType.want → r2.currentPrice = some price)
          ∧ (r.type = ProductType.have_ → r2.currentPrice = r.currentPrice)
          ∧ r2.priceBought = r.priceBought
          ∧ r2.type = r.type
          ∧ r2.name = r.name
          ∧ r2.brand = r.brand
          ∧ r2.originalPrice = r.originalPrice
          ∧ r2.targetPrice = r.targetPrice
          ∧ r2.userId = r.userId
          ∧ r2.createdAt = r.createdAt
          ∧ r2.updatedAt = now
          ∧ findProduct (setProduct store productId r2) productId = some r2
          ∧ (∀ q, q ≠ productId →
              findProduct (setProduct store productId r2) q = findProduct store q)) := by
  constructor
  · intro h
    simp [addPriceHistoryRepo, h]
  · intro r h
    refine ⟨applyUpdates r now
        { priceHistory := some (r.priceHistory.getD []
            ++ [{ price := price, date := now, website := website }])
          currentPrice := if r.type == ProductType.want then some price else none },
      ?_, ?_, ?_, ?_, rfl, rfl, rfl, rfl, rfl, ?_, rfl, rfl, rfl, ?_, ?_⟩
    · simp [addPriceHistoryRepo, updateProductRepo, h]
    · simp [applyUpdates, mergeOpt]
    · intro ht
      simp [applyUpdates, mergeOpt, ht]
    · intro ht
      simp [applyUpdates, mergeOpt, ht]
    · simp [applyUpdates, mergeOpt]
    · rw [findProduct_setProduct_self, h]
      rfl
    · intro q hq
      exact findProduct_setProduct_ne store productId q _ hq

/-- A stored "want" product used to instantiate the stateful theorems. -/
def sampleWantStored : StoredProduct :=
  { type := ProductType.want
    name := "iPad Pro"
    brand := "Apple"
    website := "https://www.apple.com/ipad-pro"
    originalPrice := 999
    date := "2024-01-15"
    userId := "user-1"
    currentPrice := some 899
    createdAt := "2024-01-15T10:00:00.000Z"
    updatedAt := "2024-01-15T10:00:00.000Z" }

/-- A one-product store holding `sampleWantStored` under id "p1". -/
def sampleStore : ProductStore := [("p1", sampleWantStored)]

theorem addPriceHistory_spec_witness :
    ∃ r2,
      addPriceHistoryRepo sampleStore "2024-02-02T00:00:00.000Z" "p1" 450 "amazon.co.uk"
        = Except.ok (setProduct sampleStore "p1" r2)
      ∧ r2.priceHistory = some (sampleWantStored.priceHistory.getD []
          ++ [{ price := 450, date := "2024-02-02T00:00:00.000Z", website := "amazon.co.uk" }])
      ∧ (sampleWantStored.type = ProductType.want → r2.currentPrice = some 450)
      ∧ (sampleWantStored.type = ProductType.have_ →
          r2.currentPrice = sampleWantStored.currentPrice)
      ∧ r2.priceBought = sampleWantStored.priceBought
      ∧ r2.type = sampleWantStored.type
      ∧ r2.name = sampleWantStored.name
      ∧ r2.brand = sampleWantStored.brand
      ∧ r2.originalPrice = sampleWantStored.originalPrice
      ∧ r2.targetPrice = sampleWantStored.targetPrice
      ∧ r2.userId = sampleWantStored.userId
      ∧ r2.createdAt = sampleWantStored.createdAt
      ∧ r2.updatedAt = "2024-02-02T00:00:00.000Z"
      ∧ findProduct (setProduct sampleStore "p1" r2) "p1" = some r2
      ∧ (∀ q, q ≠ "p1" →
          findProduct (setProduct sampleStore "p1" r2) q = findProduct sampleStore q) :=
  (addPriceHistory_spec sampleStore "2024-02-02T00:00:00.000Z" "p1" 450 "amazon.co.uk").2
    sampleWantStored (by decide)

/-- Claim C6: `updateProduct(id, updates)` persists exactly the supplied fields
plus a refreshed `updatedAt`; every unsupplied field keeps its stored value;
`userId` and `createdAt` are never changed — the accepted update type
(`Partial<Omit<Product, "id" | "userId" | "createdAt">>`) has no such fields,
so an attempt to supply them is rejected at the type level — and no other
document is modified.  `ProductService.updateProduct` forwards the same
updates object after validation. -/
theorem updateProduct_frame (store : ProductStore) (productId now : String)
    (u : ProductUpdates) :
    (findProduct store productId = none →
      updateProductRepo store productId now u = Except.error "No document to update")
    ∧ (∀ r, findProduct store productId = some r →
        updateProductRepo store productId now u
          = Except.ok (setProduct store productId (applyUpdates r now u))
        ∧ (applyUpdates r now u).userId = r.userId
        ∧ (applyUpdates r now u).createdAt = r.createdAt
        ∧ (applyUpdates r now u).updatedAt = now
        ∧ (u.type = none → (applyUpdates r now u).type = r.type)
        ∧ (∀ v, u.type = some v → (applyUpdates r now u).type = v)
        ∧ (u.name = none → (applyUpdates r now u).name = r.name)
        ∧ (∀ v, u.name = some v → (applyUpdates r now u).name = v)
        ∧ (u.brand = none → (applyUpdates r now u).brand = r.brand)
        ∧ (∀ v, u.brand = some v → (applyUpdates r now u).brand = v)
        ∧ (u.website = none → (applyUpdates r now u).website = r.website)
        ∧ (∀ v, u.website = some v → (applyUpdates r now u).website = v)
        ∧ (u.originalPrice = none →
            (applyUpdates r now u).originalPrice = r.originalPrice)
        ∧ (∀ v, u.originalPrice = some v → (applyUpdates r now u).originalPrice = v)
        ∧ (u.date = none → (applyUpdates r now u).date = r.date)
        ∧ (∀ v, u.date = some v → (applyUpdates r now u).date = v)
        ∧ (u.description = none → (applyUpdates r now u).description = r.description)
        ∧ (∀ v, u.description = some v → (applyUpdates r now u).description = some v)
        ∧ (u.category = none → (applyUpdates r now u).category = r.category)
        ∧ (∀ v, u.category = some v → (applyUpdates r now u).category = some v)
        ∧ (u.images = none → (applyUpdates r now u).images = r.images)
        ∧ (∀ v, u.images = some v → (applyUpdates r now u).images = some v)
        ∧ (u.specifications = none →
            (applyUpdates r now u).specifications = r.specifications)
        ∧ (∀ v, u.specifications = some v →
            (applyUpdates r now u).specifications = some v)
        ∧ (u.model = none → (applyUpdates r now u).model = r.model)
        ∧ (∀ v, u.model = some v → (applyUpdates r now u).model = some v)
        ∧ (u.sku = none → (applyUpdates r now u).sku = r.sku)
        ∧ (∀ v, u.sku = some v → (applyUpdates r now u).sku = some v)
        ∧ (u.color = none → (applyUpdates r now u).color = r.color)
        ∧ (∀ v, u.color = some v → (applyUpdates r now u).color = some v)
        ∧ (u.size = none → (applyUpdates r now u).size = r.size)
        ∧ (∀ v, u.size = some v → (applyUpdates r now u).size = some v)
        ∧ (u.condition = none → (applyUpdates r now u).condition = r.condition)
        ∧ (∀ v, u.condition = some v → (applyUpdates r now u).condition = some v)
        ∧ (u.notes = none → (applyUpdates r now u).notes = r.notes)
        ∧ (∀ v, u.notes = some v → (applyUpdates r now u).notes = some v)
        ∧ (u.currentPrice = none → (applyUpdates r now u).currentPrice = r.currentPrice)
        ∧ (∀ v, u.currentPrice = some v → (applyUpdates r now u).currentPrice = some v)
        ∧ (u.targetPrice = none → (applyUpdates r now u).targetPrice = r.targetPrice)
        ∧ (∀ v, u.targetPrice = some v → (applyUpdates r now u).targetPrice = some v)
        ∧ (u.priceHistory = none → (applyUpdates r now u).priceHistory = r.priceHistory)
        ∧ (∀ v, u.priceHistory = some v → (applyUpdates r now u).priceHistory = some v)
        ∧ (u.priceBought = none → (applyUpdates r now u).priceBought = r.priceBought)
        ∧ (∀ v, u.priceBought = some v → (applyUpdates r now u).priceBought = some v)
        ∧ (u.purchaseLocation = none →
            (applyUpdates r now u).purchaseLocation = r.purchaseLocation)
        ∧ (∀ v, u.purchaseLocation = some v →
            (applyUpdates r now u).purchaseLocation = some v)
        ∧ (u.warrantyExpiry = none →
            (applyUpdates r now u).warrantyExpiry = r.warrantyExpiry)
        ∧ (∀ v, u.warrantyExpiry = some v → (applyUpdates r now u).warrantyExpiry = some v)
        ∧ (u.receiptId = none → (applyUpdates r now u).receiptId = r.receiptId)
        ∧ (∀ v, u.receiptId = some v → (applyUpdates r now u).receiptId = some v)
        ∧ (u.isSelling = none → (applyUpdates r now u).isSelling = r.isSelling)
        ∧ (∀ v, u.isSelling = some v → (applyUpdates r now u).isSelling = some v)
        ∧ (u.sellingOn = none → (applyUpdates r now u).sellingOn = r.sellingOn)
        ∧ (∀ v, u.sellingOn = some v → (applyUpdates r now u).sellingOn = some v)
        ∧ (∀ q, q ≠ productId →
            findProduct (setProduct store productId (applyUpdates r now u)) q
              = findProduct store q)
        ∧ (∀ uv dv, productId ≠ "" →
            (validateProductUpdate uv dv u).valid = true →
            serviceUpdateProduct uv dv store productId now u
              = (setProduct store productId (applyUpdates r now u), Except.ok ()))) := by
  constructor
  · intro h
    simp [updateProductRepo, h]
  · intro r h
    repeat' apply And.intro
    all_goals intros
    all_goals first
      | rfl
      | (exact findProduct_setProduct_ne store productId _ _ (by assumption))
      | simp_all [serviceUpdateProduct, updateProductRepo, applyUpdates, mergeOpt]

theorem updateProduct_frame_witness :
    (applyUpdates sampleWantStored "2024-03-03T00:00:00.000Z" { notes := some "ok" }).userId
      = sampleWantStored.userId :=
  ((updateProduct_frame sampleStore "p1" "2024-03-03T00:00:00.000Z" { notes := some "ok" }).2
      sampleWantStored (by decide)).2.1

/-- Claim C7: `createProduct` on a payload that fails validation rejects with a
single error listing all accumulated violations joined with ", " and persists
nothing; on success it stamps `createdAt` and `updatedAt` with the identical
current time, persists the record unchanged, and returns the new id. -/
theorem createProduct_spec (uv dv : String → Bool) (store : ProductStore)
    (newId now : String) (p : ProductPayload) :
    ((validateProduct uv dv p).valid = false →
      serviceCreateProduct uv dv store newId now p
        = (store, Except.error ("Validation failed: "
            ++ String.intercalate ", " (validateProduct uv dv p).errors)))
    ∧ ((validateProduct uv dv p).valid = true →
        serviceCreateProduct uv dv store newId now p
          = (store ++ [(newId, stampProduct p now)], Except.ok newId)
        ∧ (stampProduct p now).createdAt = now
        ∧ (stampProduct p now).updatedAt = now
        ∧ (stampProduct p now).toProductPayload = p
        ∧ (now ≠ "" →
            (stampProduct p now).createdAt ≠ "" ∧ (stampProduct p now).updatedAt ≠ "")) := by
  constructor
  · intro h
    simp [serviceCreateProduct, h]
  · intro h
    refine ⟨?_, rfl, rfl, rfl, fun hn => ⟨hn, hn⟩⟩
    simp [serviceCreateProduct, createProductRepo, h]

/-- A fully valid "have" create payload. -/
def goodHavePayload : ProductPayload :=
  { type := ProductType.have_
    name := "MacBook Air"
    brand := "Apple"
    website := "https://www.apple.com/macbook-air"
    originalPrice := 1099
    date := "2024-01-20"
    userId := "user-1"
    priceBought := some 900 }

theorem createProduct_spec_witness :
    serviceCreateProduct (fun _ => true) (fun _ => true) [] "p9" "2024-01-20T09:00:00.000Z"
        goodHavePayload
      = ([("p9", stampProduct goodHavePayload "2024-01-20T09:00:00.000Z")], Except.ok "p9") :=
  ((createProduct_spec (fun _ => true) (fun _ => true) [] "p9" "2024-01-20T09:00:00.000Z"
      goodHavePayload).2 (by decide)).1

theorem newestFirstLe_total (a b : StoredProduct) :
    (newestFirstLe a b || newestFirstLe b a) = true := by
  by_cases ha : a.createdAt = "" <;> by_cases hb : b.createdAt = ""
  · simp [newestFirstLe, ha, hb]
  · simp [newestFirstLe, ha, hb]
  · simp [newestFirstLe, ha, hb]
  · rcases le_total b.createdAt a.createdAt with h | h
    · have hle : newestFirstLe a b = true := by simp [newestFirstLe, ha, hb, h]
      simp [hle]
    · have hle : newestFirstLe b a = true := by simp [newestFirstLe, ha, hb, h]
      simp [hle]

theorem newestFirstLe_trans (a b c : StoredProduct) :
    newestFirstLe a b = true → newestFirstLe b c = true → newestFirstLe a c = true := by
  intro hab hbc
  by_cases ha : a.createdAt = "" <;> by_cases hb : b.createdAt = "" <;>
    by_cases hc : c.createdAt = "" <;>
    simp [newestFirstLe, ha, hb, hc] at hab hbc ⊢ <;>
    exact le_trans hbc hab

/-- Claim C8: when the backend reports a failed-precondition, unavailable or
permission failure, `getProducts` returns an empty list instead of
propagating; on success it returns the query's products sorted newest-first
by `createdAt` (a permutation of the query result, pairwise ordered by the
comparator). -/
theorem getProducts_spec (store : ProductStore) (userId : String) (ty : Option ProductType) :
    (∀ code,
      (code = "failed-precondition" ∨ code = "unavailable" ∨ code = "permission-denied") →
      getProductsRepo store userId ty (some code) = [])
    ∧ (getProductsRepo store userId ty none).Perm (runProductsQuery store userId ty)
    ∧ (getProductsRepo store userId ty none).Pairwise
        (fun a b => newestFirstLe a b = true) := by
  refine ⟨?_, ?_, ?_⟩
  · intro code hc
    rcases hc with h | h | h <;> simp [getProductsRepo, h]
  · simpa [getProductsRepo, sortNewestFirst] using
      List.mergeSort_perm (runProductsQuery store userId ty) newestFirstLe
  · simpa [getProductsRepo, sortNewestFirst] using
      List.sorted_mergeSort newestFirstLe_trans newestFirstLe_total
        (runProductsQuery store userId ty)

theorem getProducts_spec_witness :
    getProductsRepo sampleStore "user-1" none (some "unavailable") = [] :=
  (getProducts_spec sampleStore "user-1" none).1 "unavailable" (Or.inr (Or.inl rfl))

/-- Claim C10 (counterexample): at `productId = ""` with a non-positive price,
`ProductService.addPriceHistory` throws the productId guard's message, not an
error stating the price must be greater than 0, so the claim's "for every
productId" quantification fails (the store is still untouched). -/
theorem serviceAddPriceHistory_emptyId :
    serviceAddPriceHistory [] "2024-01-01T00:00:00.000Z" "" (-1) "2024-01-01" none none
      = (([] : ProductStore), Except.error "Valid productId is required")
    ∧ "Valid productId is required" ≠ "Price must be greater than 0"
    ∧ ((-1 : Rat) ≤ 0) := by
  refine ⟨rfl, by decide, by decide⟩

/-- Claim C10 (amended): for every non-empty productId and price ≤ 0,
`ProductService.addPriceHistory` throws "Price must be greater than 0" before
any repository call, leaving the store unchanged; an empty productId instead
hits the preceding guard, also before any repository call. -/
theorem serviceAddPriceHistory_nonpositive (store : ProductStore) (now productId : String)
    (price : Rat) (date : String) (storeName notes : Option String)
    (hpid : productId ≠ "") (hp : price ≤ 0) :
    serviceAddPriceHistory store now productId price date storeName notes
      = (store, Except.error "Price must be greater than 0") := by
  simp [serviceAddPriceHistory, hpid, hp]

theorem serviceAddPriceHistory_nonpositive_witness :
    serviceAddPriceHistory sampleStore "2024-01-01T00:00:00.000Z" "p1" 0 "2024-01-01" none none
      = (sampleStore, Except.error "Price must be greater than 0") :=
  serviceAddPriceHistory_nonpositive sampleStore "2024-01-01T00:00:00.000Z" "p1" 0 "2024-01-01"
    none none (by decide) (by decide)

/-- A receipt item for the C5 fixture: a real item carries all four fields. -/
def fixtureItem : ReceiptItem :=
  { id := "item-1", productId := "prod-1", quantity := 1, discountedPrice := 0 }

/-- A stored receipt whose single item references product "prod-1". -/
def fixtureReceipt : ReceiptPayload :=
  { receiptNumber := "R-100", storeName := "Currys", receiptDate := "2024-01-10",
    items := [fixtureItem], totalAmount := 0, userId := "user-1" }

/-- Claim C5, evaluated at the failing input: the receipt does contain an item
with `productId = "prod-1"`, yet `getReceiptsByProduct` returns `[]`, because
the `array-contains-any` value `{productId}` is never deep-equal to a stored
item map that also carries `id`, `quantity` and `discountedPrice`. -/
theorem getReceiptsByProduct_misses_match :
    getReceiptsByProduct [fixtureReceipt] "prod-1" = []
    ∧ fixtureReceipt.items.any (fun item => item.productId == "prod-1") = true
    ∧ fireMapEq (encodeItem fixtureItem) (productIdQueryValue "prod-1") = false := by
  decide

/-- Claim C9: `lookupProduct` attempts the barcode endpoint first iff the
trimmed query is purely digits, falling through to the name search when the
barcode path yields nothing; a query whose trimmed form contains a non-digit
character never reaches the barcode endpoint and, when non-blank, attempts
exactly the name search; and on either endpoint a thrown fetch error or a
non-success response is swallowed into `none`, never surfaced as an error. -/
theorem lookupProduct_paths (fb fs : String → FetchOutcome UpcResponse) (query : String) :
    ((jsTrim query).length ≠ 0 → isNumericQuery (jsTrim query) = true →
      ((lookupByBarcode (fb (jsTrim query)) = none →
          (lookupProduct fb fs query).2
            = [LookupCall.barcode (jsTrim query), LookupCall.search (jsTrim query)]
          ∧ (lookupProduct fb fs query).1 = searchProductByName (fs (jsTrim query)))
        ∧ (∀ r, lookupByBarcode (fb (jsTrim query)) = some r →
            (lookupProduct fb fs query).1 = some r
            ∧ (lookupProduct fb fs query).2 = [LookupCall.barcode (jsTrim query)])))
    ∧ (isNumericQuery (jsTrim query) = false →
        ∀ c, LookupCall.barcode c ∉ (lookupProduct fb fs query).2)
    ∧ ((jsTrim query).length ≠ 0 → isNumericQuery (jsTrim query) = false →
        (lookupProduct fb fs query).2 = [LookupCall.search (jsTrim query)]
        ∧ (lookupProduct fb fs query).1 = searchProductByName (fs (jsTrim query)))
    ∧ lookupByBarcode FetchOutcome.networkError = none
    ∧ (∀ body, lookupByBarcode (FetchOutcome.response false body) = none)
    ∧ searchProductByName FetchOutcome.networkError = none
    ∧ (∀ body, searchProductByName (FetchOutcome.response false body) = none) := by
  refine ⟨?_, ?_, ?_, rfl, fun body => rfl, rfl, fun body => rfl⟩
  · intro h0 hnum
    have hq : query ≠ "" := fun e => h0 (by rw [e]; decide)
    have hg : (query == "" || ((jsTrim query).length == 0)) = false := by
      simp [hq, h0]
    constructor
    · intro hbc
      cases hs : searchProductByName (fs (jsTrim query)) with
      | none => exact ⟨by simp [lookupProduct, hg, hnum, hbc, hs],
          by simp [lookupProduct, hg, hnum, hbc, hs]⟩
      | some r => exact ⟨by simp [lookupProduct, hg, hnum, hbc, hs],
          by simp [lookupProduct, hg, hnum, hbc, hs]⟩
    · intro r hbc
      exact ⟨by simp [lookupProduct, hg, hnum, hbc],
        by simp [lookupProduct, hg, hnum, hbc]⟩
  · intro hnum c
    by_cases hg : (query == "" || ((jsTrim query).length == 0)) = true
    · simp [lookupProduct, hg]
    · have hg2 : (query == "" || ((jsTrim query).length == 0)) = false :=
        Bool.eq_false_iff.mpr hg
      cases hs : searchProductByName (fs (jsTrim query)) with
      | none => simp [lookupProduct, hg2, hnum, hs]
      | some r => simp [lookupProduct, hg2, hnum, hs]
  · intro h0 hnum
    have hq : query ≠ "" := fun e => h0 (by rw [e]; decide)
    have hg : (query == "" || ((jsTrim query).length == 0)) = false := by
      simp [hq, h0]
    cases hs : searchProductByName (fs (jsTrim query)) with
    | none => exact ⟨by simp [lookupProduct, hg, hnum, hs],
        by simp [lookupProduct, hg, hnum, hs]⟩
    | some r => exact ⟨by simp [lookupProduct, hg, hnum, hs],
        by simp [lookupProduct, hg, hnum, hs]⟩

theorem lookupProduct_paths_witness :
    (lookupProduct (fun _ => FetchOutcome.networkError) (fun _ => FetchOutcome.networkError)
        "0123456789012").2
      = [LookupCall.barcode (jsTrim "0123456789012"), LookupCall.search (jsTrim "0123456789012")]
    ∧ (lookupProduct (fun _ => FetchOutcome.networkError) (fun _ => FetchOutcome.networkError)
        "0123456789012").1
      = searchProductByName (FetchOutcome.networkError) :=
  ((lookupProduct_paths (fun _ => FetchOutcome.networkError)
      (fun _ => FetchOutcome.networkError) "0123456789012").1 (by decide) (by decide)).1 rfl
